import Mathlib

/-!
Verification of the registration-window / scheduler core of the bot.

Shallow embedding conventions:
* time is measured in abstract minutes since an epoch whose day 0 is a Sunday,
  so a calendar day spans `minutesPerDay` units and the weekday of an instant
  is `(t / minutesPerDay) % 7` (this matches the source's
  `weekday % 7` convention where 0 is Sunday);
* the SQLite tables are modelled as lists of rows; `INSERT OR REPLACE` under a
  UNIQUE key is modelled as dropping the conflicting rows and appending the new
  one; `UPDATE ... WHERE` is a map over the rows, and `result.changes > 0`
  is `List.any` of the WHERE predicate;
* the messaging gateway (discord.js) is an oracle of booleans saying which
  calls succeed; a throwing `await` is modelled by returning the pre-call state
  unchanged, since every caller in the source wraps the body in try/catch;
* side-effect order is made observable through explicit action traces.
-/

/-! ## ReactionLedger: reaction_data table, src/src/database/index.ts -/

/-- Row of the reaction_data table, without the AUTOINCREMENT surrogate id
(the UNIQUE(user_id, message_id, reaction_type) key is what the code queries by). -/
structure ReactionRecord where
  user_id : String
  message_id : String
  reaction_type : String
  timestamp : Nat
  removed : Bool
deriving Repr, DecidableEq

abbrev ReactionTable := List ReactionRecord

/-- WHERE user_id = ? AND message_id = ? AND reaction_type = ?, the UNIQUE key
of reaction_data. -/
def matchesKey (userId messageId reactionType : String) (x : ReactionRecord) : Bool :=
  x.user_id == userId && x.message_id == messageId && x.reaction_type == reactionType

namespace reactionData

/-- reactionData.add: INSERT OR REPLACE INTO reaction_data; under the UNIQUE
constraint this deletes any conflicting row and inserts the new one. -/
def add (t : ReactionTable) (r : ReactionRecord) : ReactionTable :=
  t.filter (fun x => !(matchesKey r.user_id r.message_id r.reaction_type x)) ++ [r]

/-- reactionData.getActiveByMessageId: SELECT * WHERE message_id = ? AND removed = 0. -/
def getActiveByMessageId (t : ReactionTable) (messageId : String) : List ReactionRecord :=
  t.filter (fun x => x.message_id == messageId && x.removed == false)

/-- reactionData.get: SELECT * WHERE user_id = ? AND message_id = ? AND reaction_type = ?. -/
def get (t : ReactionTable) (userId messageId reactionType : String) : Option ReactionRecord :=
  t.find? (matchesKey userId messageId reactionType)

/-- reactionData.markAsRemoved: UPDATE reaction_data SET removed = 1, timestamp = ?
WHERE key; returns the new table together with `result.changes > 0`. -/
def markAsRemoved (t : ReactionTable) (userId messageId reactionType : String)
    (timestamp : Nat) : ReactionTable × Bool :=
  (t.map (fun x => if matchesKey userId messageId reactionType x then
      { x with removed := true, timestamp := timestamp } else x),
   t.any (matchesKey userId messageId reactionType))

end reactionData

/-! ## Time utilities: src/src/utils/timeUtils.ts -/

def minutesPerDay : Nat := 1440

/-- Floor of an instant to 00:00 of its calendar day. -/
def startOfDay (t : Nat) : Nat := (t / minutesPerDay) * minutesPerDay

/-- parseTimeString: the source splits "HH:mm" into hours and minutes and does
reference.set with second and millisecond zeroed; we take the two split fields
directly as arguments. -/
def parseTimeString (hours minutes : Nat) (reference : Nat) : Nat :=
  startOfDay reference + hours * 60 + minutes

/-- getNextOccurrence: today's occurrence of the time of day, or tomorrow's if
it is already strictly in the past. -/
def getNextOccurrence (hours minutes : Nat) (now : Nat) : Nat :=
  let targetTime := parseTimeString hours minutes now
  if targetTime < now then targetTime + minutesPerDay else targetTime

/-- MealRegistrationService.createMealRegistrationData, reduced to the
endTime/endTimestamp computation (the other fields of the returned object are
presentation data): end-before-start pushes the end to the next day. -/
def createMealRegistrationData (startH startM endH endM : Nat) (now : Nat) : Nat :=
  let startTime := parseTimeString startH startM now
  let endTime := parseTimeString endH endM now
  let endTime := if endTime < startTime then endTime + minutesPerDay else endTime
  endTime

/-! ## Scheduler: src/unnamed/part_021 (Scheduler class) and scheduler/persistence.ts -/

inductive SchedulerEventType where
  | ONE_TIME
  | RECURRING
deriving Repr, DecidableEq

/-- Recurrence rule of a task: the HH:mm pattern (split into fields as in
parseTimeString) and the optional days-of-week list. -/
structure Recurrence where
  patternH : Nat
  patternM : Nat
  days : Option (List Nat)
deriving Repr, DecidableEq

structure SchedulerTask where
  id : String
  type : SchedulerEventType
  executeAt : Nat
  recurring : Option Recurrence
deriving Repr, DecidableEq

/-- Scheduler state: the in-memory tasks map, the in-memory timers map (value:
the delay the timer was armed with), and the persisted scheduler_tasks table
(saveTask is INSERT OR REPLACE keyed by id). All three are association lists
keyed by task id. -/
structure SchedState where
  tasks : List (String × SchedulerTask)
  timers : List (String × Int)
  store : List (String × SchedulerTask)
deriving Repr, DecidableEq

/-- Map.set / INSERT OR REPLACE on an association list. -/
def setEntry {α : Type} (l : List (String × α)) (id : String) (v : α) : List (String × α) :=
  (id, v) :: l.filter (fun e => !(e.1 == id))

/-- Map.delete / DELETE WHERE id on an association list. -/
def dropEntry {α : Type} (l : List (String × α)) (id : String) : List (String × α) :=
  l.filter (fun e => !(e.1 == id))

/-- Observable side effects of Scheduler.scheduleTask, in program order. -/
inductive SchedAction where
  | cancelExisting : String → SchedAction
  | setTask : String → SchedAction
  | armTimer : String → Int → SchedAction
  | saveTask : String → SchedAction
deriving Repr, DecidableEq

/-- Scheduler.cancelTask: only if a timer exists for the id are the timer, the
task entry and the persisted row removed; otherwise it reports not-found. -/
def cancelTask (s : SchedState) (id : String) : SchedState × Bool :=
  match s.timers.lookup id with
  | some _ =>
    (⟨dropEntry s.tasks id, dropEntry s.timers id, dropEntry s.store id⟩, true)
  | none => (s, false)

/-- Scheduler.scheduleTask: cancel any existing task with the same id, put the
task in the in-memory map, arm a timer for max(0, executeAt - now), and only
then persist via saveTask. The returned trace records that order. -/
def scheduleTask (s : SchedState) (task : SchedulerTask) (now : Nat) :
    SchedState × List SchedAction :=
  let s1 := (cancelTask s task.id).1
  let s2 : SchedState := { s1 with tasks := setEntry s1.tasks task.id task }
  let delay : Int := max 0 ((task.executeAt : Int) - (now : Int))
  let s3 : SchedState := { s2 with timers := setEntry s2.timers task.id delay }
  let s4 : SchedState := { s3 with store := setEntry s3.store task.id task }
  (s4, [SchedAction.cancelExisting task.id, SchedAction.setTask task.id,
        SchedAction.armTimer task.id delay, SchedAction.saveTask task.id])

/-- Scheduler.scheduleOnce. -/
def scheduleOnce (s : SchedState) (id : String) (executeAt : Nat) (now : Nat) :
    SchedState × List SchedAction :=
  scheduleTask s ⟨id, SchedulerEventType.ONE_TIME, executeAt, none⟩ now

/-- Weekday of an instant, with day 0 of the epoch a Sunday; matches the
source's `weekday % 7` where 0 is Sunday. -/
def dayOfWeek (t : Nat) : Nat := (t / minutesPerDay) % 7

/-- Scheduler.findNextValidDay: the valid days are sorted ascending and the
first one strictly after the current day is returned; otherwise the source
falls back to `sortedDays[0] || currentDay`, in which JavaScript treats both an
empty array (undefined) and a first element equal to 0 as falsy, yielding
currentDay in those two cases. -/
def findNextValidDay (currentDay : Nat) (validDays : List Nat) : Nat :=
  let sortedDays := validDays.insertionSort (fun a b => a ≤ b)
  match sortedDays.find? (fun day => decide (currentDay < day)) with
  | some day => day
  | none =>
    match sortedDays.headD 0 with
    | 0 => currentDay
    | d => d

/-- Scheduler.executeTask's computation of the rescheduled executeAt for a
recurring task. The source computes daysToAdd and evaluates
`nextExecutionTime.plus({days: daysToAdd})`, but luxon DateTimes are immutable
and the returned value is discarded, so the new task keeps the unadjusted
nextExecutionTime; the discarded expression is kept here as a dead binding. -/
def rescheduleExecuteAt (patternH patternM : Nat) (days : Option (List Nat)) (now : Nat) : Nat :=
  let nextExecutionTime := getNextOccurrence patternH patternM now
  let _discarded :=
    match days with
    | some ds =>
      if ds.length > 0 then
        let weekday := dayOfWeek nextExecutionTime
        if !(ds.contains weekday) then
          let nextValid := findNextValidDay weekday ds
          let daysToAdd := (nextValid + 7 - weekday) % 7
          nextExecutionTime + daysToAdd * minutesPerDay
        else nextExecutionTime
      else nextExecutionTime
    | none => nextExecutionTime
  nextExecutionTime

/-- Scheduler.scheduleRecurring: the first executeAt is getNextOccurrence of
the pattern; the days list is stored on the task but not consulted here. -/
def scheduleRecurring (s : SchedState) (id : String) (patternH patternM : Nat)
    (days : Option (List Nat)) (now : Nat) : SchedState × List SchedAction :=
  let nextExecutionTime := getNextOccurrence patternH patternM now
  scheduleTask s
    ⟨id, SchedulerEventType.RECURRING, nextExecutionTime, some ⟨patternH, patternM, days⟩⟩ now

/-- Outcome record of one Scheduler.executeTask call: how many taskExecuted
notifications were emitted, whether an execution error was reported via
handleSchedulerError, the executeAt the task was re-armed at (recurring path),
and whether the one-time task was removed. -/
structure ExecOutcome where
  notifications : Nat
  errorReported : Bool
  rescheduledAt : Option Nat
  taskRemoved : Bool
deriving Repr, DecidableEq

/-- Body of the try block of Scheduler.executeTask after the task lookup: emit
taskExecuted to the subscribers (a synchronous subscriber throw propagates out
of emit), then either reschedule the recurring task via scheduleTask or remove
the one-time task from the maps and the store. -/
def executeTaskTry (s : SchedState) (task : SchedulerTask) (subscriberThrows : Bool)
    (now : Nat) : Except String (SchedState × Option Nat × Bool) := do
  if subscriberThrows then throw "subscriber error" else pure ()
  match task.type, task.recurring with
  | SchedulerEventType.RECURRING, some rec =>
    let newExecuteAt := rescheduleExecuteAt rec.patternH rec.patternM rec.days now
    pure ((scheduleTask s { task with executeAt := newExecuteAt } now).1, some newExecuteAt, false)
  | _, _ =>
    pure (⟨dropEntry s.tasks task.id, dropEntry s.timers task.id, dropEntry s.store task.id⟩,
          none, true)

/-- Scheduler.executeTask: look up the task (a missing task is reported as an
execution error); the try body is executeTaskTry and the catch block reports
the error, leaving the state as it was when the throw happened. -/
def executeTask (s : SchedState) (id : String) (subscriberThrows : Bool) (now : Nat) :
    SchedState × ExecOutcome :=
  match s.tasks.lookup id with
  | none => (s, ⟨0, true, none, false⟩)
  | some task =>
    match executeTaskTry s task subscriberThrows now with
    | Except.ok (s1, resched, removed) => (s1, ⟨1, false, resched, removed⟩)
    | Except.error _ => (s, ⟨1, true, none, false⟩)

/-! ## RegistrationWindow manager and recovery: src/src/services/index.ts -/

/-- Row of the active_registrations table. -/
structure Registration where
  message_id : String
  channel_id : String
  registration_type : String
  end_timestamp : Nat
  identifier_string : Option String
deriving Repr, DecidableEq

/-- Success oracle for the messaging gateway plus the roster it returns. -/
structure Gateway where
  channelExists : String → Bool
  messageExists : String → Bool
  membersOk : Bool
  members : List String
  sendOk : Bool
  stripOk : Bool

inductive GatewayCall where
  | fetchMessage : String → String → GatewayCall
  | fetchMembers : GatewayCall
  | sendMessage : String → GatewayCall
  | editMessage : String → String → GatewayCall
  | removeAllReactions : String → GatewayCall
deriving Repr, DecidableEq

def isEditCall : GatewayCall → Bool
  | GatewayCall.editMessage _ _ => true
  | _ => false

/-- Persistent bot state touched by close processing: the active_registrations
table, the reaction ledger, and a counter of summary messages delivered. -/
structure BotState where
  registrations : List Registration
  reaction_data : ReactionTable
  summariesSent : Nat
deriving Repr, DecidableEq

/-- MealRegistrationService.processRegistrationEnd: find the registration by
identifier, resolve the channel, fetch the original message, fetch the roster,
send the summary embed as a new message to the channel, strip all reactions
from the original message, and only then delete the active_registrations row.
Every gateway failure is caught by the surrounding try/catch and leaves the
state as it was at the moment of the failure; the reaction ledger is only read,
never written. The second component is the trace of gateway calls attempted. -/
def processRegistrationEnd (g : Gateway) (st : BotState) (registrationIdentifier : String) :
    BotState × List GatewayCall :=
  match st.registrations.find? (fun reg => reg.identifier_string == some registrationIdentifier) with
  | none => (st, [])
  | some registration =>
    if !(g.channelExists registration.channel_id) then (st, []) else
    if !(g.messageExists registration.message_id) then
      (st, [GatewayCall.fetchMessage registration.channel_id registration.message_id]) else
    if !g.membersOk then
      (st, [GatewayCall.fetchMessage registration.channel_id registration.message_id,
            GatewayCall.fetchMembers]) else
    if !g.sendOk then
      (st, [GatewayCall.fetchMessage registration.channel_id registration.message_id,
            GatewayCall.fetchMembers, GatewayCall.sendMessage registration.channel_id]) else
    let st1 : BotState := { st with summariesSent := st.summariesSent + 1 }
    if !g.stripOk then
      (st1, [GatewayCall.fetchMessage registration.channel_id registration.message_id,
             GatewayCall.fetchMembers, GatewayCall.sendMessage registration.channel_id,
             GatewayCall.removeAllReactions registration.message_id]) else
    ({ st1 with registrations :=
        st1.registrations.filter (fun r => !(r.message_id == registration.message_id)) },
     [GatewayCall.fetchMessage registration.channel_id registration.message_id,
      GatewayCall.fetchMembers, GatewayCall.sendMessage registration.channel_id,
      GatewayCall.removeAllReactions registration.message_id])

/-- StateRecoveryService.recoverRegistration for one row: a missing channel or
a failed message fetch removes the row (accepted data loss); otherwise a CUSTOM
task is scheduled (immediately when overdue, at end_timestamp otherwise) whose
payload carries the registration identifier, and whose execution runs
processRegistrationEnd. The second component lists the scheduled identifiers. -/
def recoverRegistration (g : Gateway) (st : BotState) (registration : Registration)
    (now : Nat) : BotState × List (Option String) :=
  if !(g.channelExists registration.channel_id) then
    ({ st with registrations :=
        st.registrations.filter (fun r => !(r.message_id == registration.message_id)) }, [])
  else if registration.end_timestamp ≤ now then
    if g.messageExists registration.message_id then
      (st, [registration.identifier_string])
    else
      ({ st with registrations :=
          st.registrations.filter (fun r => !(r.message_id == registration.message_id)) }, [])
  else
    if g.messageExists registration.message_id then
      (st, [registration.identifier_string])
    else
      ({ st with registrations :=
          st.registrations.filter (fun r => !(r.message_id == registration.message_id)) }, [])

/-- Loop body of StateRecoveryService.recoverState over a snapshot of the
rows returned by activeRegistrations.getAll(). -/
def recoverLoop (g : Gateway) (st : BotState) (regs : List Registration) (now : Nat) :
    BotState × List (Option String) :=
  match regs with
  | [] => (st, [])
  | reg :: rest =>
    let step := recoverRegistration g st reg now
    let restResult := recoverLoop g step.1 rest now
    (restResult.1, step.2 ++ restResult.2)

/-- StateRecoveryService.recoverState: iterate recoverRegistration over the
snapshot of all active registrations. -/
def recoverState (g : Gateway) (st : BotState) (now : Nat) : BotState × List (Option String) :=
  recoverLoop g st st.registrations now

/-! ## Reaction event handling: src/src/events/reactionEvents.ts -/

structure EmojiConfig where
  breakfast : String
  dinner : String
  late : String
deriving Repr, DecidableEq

/-- VALID_EMOJIS table keyed by registration type; an unknown type has no
entry, making isValidEmoji false. -/
def VALID_EMOJIS (cfg : EmojiConfig) (registrationType : String) : List String :=
  if registrationType == "MEAL_REGISTRATION" then [cfg.breakfast, cfg.dinner]
  else if registrationType == "LATE_MORNING_REGISTRATION" then [cfg.late]
  else if registrationType == "LATE_EVENING_REGISTRATION" then [cfg.late]
  else []

def isValidEmoji (cfg : EmojiConfig) (emoji registrationType : String) : Bool :=
  (VALID_EMOJIS cfg registrationType).contains emoji

/-- getRegistrationType: activeRegistrations.getByMessageId projected to the
registration_type column. -/
def getRegistrationType (regs : List Registration) (messageId : String) : Option String :=
  (regs.find? (fun r => r.message_id == messageId)).map (fun r => r.registration_type)

/-- Log embed data produced by handleReactionAdd; the tracked-role check only
feeds this entry. -/
structure ReactionLogEntry where
  userId : String
  emoji : String
  hasTrackedRole : Bool
deriving Repr, DecidableEq

/-- handleReactionAdd: skip bots, null emojis, non-registration messages and
invalid emojis; otherwise record the reaction in the ledger with
removed = false (unconditionally, whatever hasTrackedRole is) and emit a log
entry that mentions the role check. -/
def handleReactionAdd (cfg : EmojiConfig) (regs : List Registration)
    (hasTrackedRole : Bool) (isBot : Bool) (emoji : Option String)
    (userId messageId : String) (timestamp : Nat) (t : ReactionTable) :
    ReactionTable × Option ReactionLogEntry :=
  if isBot then (t, none) else
  match emoji with
  | none => (t, none)
  | some e =>
    match getRegistrationType regs messageId with
    | none => (t, none)
    | some registrationType =>
      if !(isValidEmoji cfg e registrationType) then (t, none) else
      (reactionData.add t ⟨userId, messageId, e, timestamp, false⟩,
       some ⟨userId, e, hasTrackedRole⟩)

/-- processRegistrationEnd summary computation: the user ids that reacted with
a given emoji among the active reactions of the message. -/
def mealUserIds (reactions : List ReactionRecord) (emoji : String) : List String :=
  (reactions.filter (fun r => r.reaction_type == emoji)).map (fun r => r.user_id)

/-- Registered list of the summary: roster members that appear in the reacted
user ids. -/
def registeredUsers (membersWithRole : List String) (userIds : List String) : List String :=
  membersWithRole.filter (fun mem => userIds.contains mem)

/-- Unregistered list of the summary: roster members that do not appear in the
reacted user ids. -/
def unregisteredUsers (membersWithRole : List String) (userIds : List String) : List String :=
  membersWithRole.filter (fun mem => !(userIds.contains mem))

/-! ## Action classifiers and concrete fixtures -/

def isArmAction : SchedAction → Bool
  | SchedAction.armTimer _ _ => true
  | _ => false

def isSaveAction : SchedAction → Bool
  | SchedAction.saveTask _ => true
  | _ => false

/-- Recurring task fixture: pattern 05:00, no day restriction. -/
def taskR1 : SchedulerTask :=
  ⟨"r1", SchedulerEventType.RECURRING, 300, some ⟨5, 0, none⟩⟩

/-- Scheduler state holding taskR1, armed and persisted. -/
def schedStateR1 : SchedState :=
  ⟨[("r1", taskR1)], [("r1", 300)], [("r1", taskR1)]⟩

/-- Regular registration row fixture whose window has ended at time 100. -/
def regMeal : Registration :=
  ⟨"m1", "c1", "MEAL_REGISTRATION", 100, some "MEAL_REGISTRATION_01"⟩

/-- Gateway on which every call succeeds. -/
def gatewayAllOk : Gateway :=
  ⟨fun _ => true, fun _ => true, true, ["x1"], true, true⟩

/-- Bot state holding the regMeal window and one active opt-in row. -/
def botStateOne : BotState :=
  ⟨[regMeal], [⟨"u1", "m1", "sun", 1, false⟩], 0⟩

/-- Emoji configuration fixture. -/
def cfgW : EmojiConfig := ⟨"sun", "moon", "late"⟩

/-! ## Generic list lemmas -/

/-- Filtering by a predicate after keeping only its complement yields nothing. -/
theorem filter_pos_of_filter_neg {α : Type} (p : α → Bool) (l : List α) :
    (l.filter (fun x => !(p x))).filter p = [] := by
  induction l with
  | nil => rfl
  | cons a l ih => cases hpa : p a <;> simp [List.filter_cons, hpa, ih]

/-- Filtering by the complement of a predicate is idempotent. -/
theorem filter_neg_idem {α : Type} (p : α → Bool) (l : List α) :
    ((l.filter (fun x => !(p x))).filter (fun x => !(p x)))
      = l.filter (fun x => !(p x)) := by
  induction l with
  | nil => rfl
  | cons a l ih => cases hpa : p a <;> simp [List.filter_cons, hpa, ih]

/-- Conditionally rewriting the rows a filter already excluded is a no-op. -/
theorem map_ite_of_filter_neg {α : Type} (p : α → Bool) (f : α → α) (l : List α) :
    ((l.filter (fun x => !(p x))).map (fun x => if p x then f x else x))
      = l.filter (fun x => !(p x)) := by
  induction l with
  | nil => rfl
  | cons a l ih => cases hpa : p a <;> simp [List.filter_cons, hpa, ih]

/-- C2: recordOptIn (reactionData.add with removed = false) is an upsert keyed by
(userId, messageId, reactionType): a duplicate opt-in leaves exactly one active
record for the key, carrying the second timestamp, and does not change the size
of the active set of the message; an opt-in after an opt-out leaves the key's
record active again. -/
theorem recordOptIn_upsert_idempotent (t : ReactionTable) (u m k : String) (t1 t2 t3 : Nat) :
    (reactionData.add (reactionData.add t ⟨u, m, k, t1, false⟩) ⟨u, m, k, t2, false⟩).filter
        (matchesKey u m k) = [⟨u, m, k, t2, false⟩] ∧
    (reactionData.getActiveByMessageId
          (reactionData.add (reactionData.add t ⟨u, m, k, t1, false⟩) ⟨u, m, k, t2, false⟩)
          m).length
      = (reactionData.getActiveByMessageId (reactionData.add t ⟨u, m, k, t1, false⟩) m).length ∧
    (reactionData.add
          ((reactionData.markAsRemoved (reactionData.add t ⟨u, m, k, t1, false⟩) u m k t3).1)
          ⟨u, m, k, t2, false⟩).filter (matchesKey u m k) = [⟨u, m, k, t2, false⟩] := by
  have hadd : ∀ (t' : ReactionTable) (ts : Nat) (rem : Bool),
      reactionData.add t' ⟨u, m, k, ts, rem⟩
        = t'.filter (fun x => !(matchesKey u m k x)) ++ [⟨u, m, k, ts, rem⟩] := by
    intro t' ts rem; rfl
  have hkey : ∀ (ts : Nat) (rem : Bool),
      matchesKey u m k (⟨u, m, k, ts, rem⟩ : ReactionRecord) = true := by
    intro ts rem; simp [matchesKey]
  refine ⟨?_, ?_, ?_⟩
  · rw [hadd, hadd]
    simp [List.filter_append, List.filter_cons, hkey, filter_pos_of_filter_neg,
          filter_neg_idem]
  · rw [hadd, hadd]
    simp [reactionData.getActiveByMessageId, List.filter_append, List.filter_cons, hkey,
          filter_neg_idem]
  · rw [hadd, hadd]
    simp [reactionData.markAsRemoved, List.map_append, map_ite_of_filter_neg, hkey,
          List.filter_append, List.filter_cons, filter_pos_of_filter_neg, filter_neg_idem]

/-- C9: recordOptOut (reactionData.markAsRemoved) with no existing ledger record
for the key reports not-found (returns false) instead of raising, and leaves
the table unchanged. -/
theorem markAsRemoved_noop_when_absent (t : ReactionTable) (u m k : String) (ts : Nat)
    (h : reactionData.get t u m k = none) :
    reactionData.markAsRemoved t u m k ts = (t, false) := by
  have hall : ∀ x ∈ t, matchesKey u m k x = false := by
    intro x hx
    have hnone := List.find?_eq_none.mp h x hx
    simpa using hnone
  unfold reactionData.markAsRemoved
  have h1 : t.map (fun x => if matchesKey u m k x then
      { x with removed := true, timestamp := ts } else x) = t := by
    have := List.map_congr_left (l := t)
      (f := fun x => if matchesKey u m k x then
        { x with removed := true, timestamp := ts } else x) (g := fun x => x)
      (fun a ha => by simp [hall a ha])
    simpa using this
  have h2 : t.any (matchesKey u m k) = false := by
    rw [List.any_eq_false]
    intro x hx
    simp [hall x hx]
  rw [h1, h2]

/-- Witness for markAsRemoved_noop_when_absent: a table holding a record for a
different user has no record for the key, and the call returns it unchanged
with false. -/
theorem markAsRemoved_noop_when_absent_witness :
    reactionData.get [⟨"u2", "m1", "sun", 1, false⟩] "u1" "m1" "sun" = none ∧
    reactionData.markAsRemoved [⟨"u2", "m1", "sun", 1, false⟩] "u1" "m1" "sun" 5
      = ([⟨"u2", "m1", "sun", 1, false⟩], false) :=
  ⟨by decide, markAsRemoved_noop_when_absent [⟨"u2", "m1", "sun", 1, false⟩]
    "u1" "m1" "sun" 5 (by decide)⟩

/-- C10: handleReactionAdd records a valid opt-in in the ledger whether or not
the user holds the tracked role; the role check only appears in the log entry.
Roster filtering happens only in the close summary, so a non-roster opt-in is
in the ledger but in neither the registered nor the unregistered list. -/
theorem handleReactionAdd_role_independent
    (cfg : EmojiConfig) (regs : List Registration) (isBot : Bool) (emoji : Option String)
    (u m : String) (ts : Nat) (t : ReactionTable) (e rt : String) (roster : List String)
    (hbot : isBot = false) (hemoji : emoji = some e)
    (hreg : getRegistrationType regs m = some rt)
    (hvalid : isValidEmoji cfg e rt = true)
    (hroster : roster.contains u = false) :
    (∀ hasTrackedRole : Bool,
      (handleReactionAdd cfg regs hasTrackedRole isBot emoji u m ts t).1
        = reactionData.add t ⟨u, m, e, ts, false⟩) ∧
    (handleReactionAdd cfg regs true isBot emoji u m ts t).2 = some ⟨u, e, true⟩ ∧
    (handleReactionAdd cfg regs false isBot emoji u m ts t).2 = some ⟨u, e, false⟩ ∧
    (∀ ids : List String,
      u ∉ registeredUsers roster ids ∧ u ∉ unregisteredUsers roster ids) := by
  subst hbot hemoji
  refine ⟨?_, ?_, ?_, ?_⟩
  · intro hasTrackedRole
    simp [handleReactionAdd, hreg, hvalid]
  · simp [handleReactionAdd, hreg, hvalid]
  · simp [handleReactionAdd, hreg, hvalid]
  · intro ids
    constructor
    · intro hmem
      have hu : u ∈ roster := List.mem_of_mem_filter hmem
      exact absurd hu (by simpa using hroster)
    · intro hmem
      have hu : u ∈ roster := List.mem_of_mem_filter hmem
      exact absurd hu (by simpa using hroster)

/-- Witness for handleReactionAdd_role_independent at a concrete event from a
user outside the roster. -/
theorem handleReactionAdd_role_independent_witness :
    (getRegistrationType [regMeal] "m1" = some "MEAL_REGISTRATION" ∧
     isValidEmoji cfgW "sun" "MEAL_REGISTRATION" = true ∧
     (["x1"] : List String).contains "u1" = false) ∧
    ((∀ hasTrackedRole : Bool,
       (handleReactionAdd cfgW [regMeal] hasTrackedRole false (some "sun") "u1" "m1" 7 []).1
         = reactionData.add [] ⟨"u1", "m1", "sun", 7, false⟩) ∧
     (handleReactionAdd cfgW [regMeal] true false (some "sun") "u1" "m1" 7 []).2
       = some ⟨"u1", "sun", true⟩ ∧
     (handleReactionAdd cfgW [regMeal] false false (some "sun") "u1" "m1" 7 []).2
       = some ⟨"u1", "sun", false⟩ ∧
     (∀ ids : List String,
       "u1" ∉ registeredUsers ["x1"] ids ∧ "u1" ∉ unregisteredUsers ["x1"] ids)) :=
  ⟨⟨by decide, by decide, by decide⟩,
   handleReactionAdd_role_independent cfgW [regMeal] false (some "sun") "u1" "m1" 7 []
     "sun" "MEAL_REGISTRATION" ["x1"] rfl rfl (by decide) (by decide) (by decide)⟩

/-- Computing the start of day of an offset within day d gives day d's midnight. -/
theorem startOfDay_add (d x : Nat) (hx : x < minutesPerDay) :
    startOfDay (d * minutesPerDay + x) = d * minutesPerDay := by
  unfold startOfDay minutesPerDay at *
  omega

/-- C7: getNextOccurrence returns today's occurrence of the time of day when it
has not yet passed and tomorrow's when it has; in particular "05:00" asked at
04:00 gives today 05:00 and asked at 06:00 gives tomorrow 05:00. -/
theorem getNextOccurrence_today_or_tomorrow (hours minutes d x : Nat)
    (hx : x < minutesPerDay) :
    (x ≤ hours * 60 + minutes →
       getNextOccurrence hours minutes (d * minutesPerDay + x)
         = d * minutesPerDay + (hours * 60 + minutes)) ∧
    (hours * 60 + minutes < x →
       getNextOccurrence hours minutes (d * minutesPerDay + x)
         = (d + 1) * minutesPerDay + (hours * 60 + minutes)) ∧
    getNextOccurrence 5 0 (d * minutesPerDay + 240) = d * minutesPerDay + 300 ∧
    getNextOccurrence 5 0 (d * minutesPerDay + 360) = (d + 1) * minutesPerDay + 300 := by
  unfold getNextOccurrence parseTimeString startOfDay minutesPerDay at *
  refine ⟨?_, ?_, ?_, ?_⟩ <;> try intro h
  all_goals dsimp only
  all_goals split <;> omega

/-- Witness for getNextOccurrence_today_or_tomorrow on day 0, including the two
spec examples evaluated concretely. -/
theorem getNextOccurrence_today_or_tomorrow_witness :
    (240 : Nat) < minutesPerDay ∧
    ((240 ≤ 5 * 60 + 0 →
        getNextOccurrence 5 0 (0 * minutesPerDay + 240)
          = 0 * minutesPerDay + (5 * 60 + 0)) ∧
     (5 * 60 + 0 < 240 →
        getNextOccurrence 5 0 (0 * minutesPerDay + 240)
          = (0 + 1) * minutesPerDay + (5 * 60 + 0)) ∧
     getNextOccurrence 5 0 (0 * minutesPerDay + 240) = 0 * minutesPerDay + 300 ∧
     getNextOccurrence 5 0 (0 * minutesPerDay + 360) = (0 + 1) * minutesPerDay + 300) :=
  ⟨by decide, getNextOccurrence_today_or_tomorrow 5 0 0 240 (by decide)⟩

/-- C8: with the end time-of-day strictly earlier than the start time-of-day
the computed endTimestamp lands on the day after the start's day, and otherwise
on the start's own day. -/
theorem createMealRegistrationData_cross_midnight (startH startM endH endM d x : Nat)
    (hx : x < minutesPerDay) (hH : endH < 24) (hM : endM < 60) :
    (endH * 60 + endM < startH * 60 + startM →
       createMealRegistrationData startH startM endH endM (d * minutesPerDay + x)
           = (d + 1) * minutesPerDay + (endH * 60 + endM) ∧
       createMealRegistrationData startH startM endH endM (d * minutesPerDay + x)
           / minutesPerDay = d + 1) ∧
    (startH * 60 + startM ≤ endH * 60 + endM →
       createMealRegistrationData startH startM endH endM (d * minutesPerDay + x)
           = d * minutesPerDay + (endH * 60 + endM) ∧
       createMealRegistrationData startH startM endH endM (d * minutesPerDay + x)
           / minutesPerDay = d) := by
  unfold createMealRegistrationData parseTimeString startOfDay minutesPerDay at *
  constructor <;> intro h <;> constructor
  all_goals dsimp only
  all_goals split <;> omega

/-- Witness for createMealRegistrationData_cross_midnight at the spec's example
window start 22:00 end 03:00, run at midnight of day 0. -/
theorem createMealRegistrationData_cross_midnight_witness :
    ((0 : Nat) < minutesPerDay ∧ (3 : Nat) < 24 ∧ (0 : Nat) < 60) ∧
    ((3 * 60 + 0 < 22 * 60 + 0 →
        createMealRegistrationData 22 0 3 0 (0 * minutesPerDay + 0)
            = (0 + 1) * minutesPerDay + (3 * 60 + 0) ∧
        createMealRegistrationData 22 0 3 0 (0 * minutesPerDay + 0)
            / minutesPerDay = 0 + 1) ∧
     (22 * 60 + 0 ≤ 3 * 60 + 0 →
        createMealRegistrationData 22 0 3 0 (0 * minutesPerDay + 0)
            = 0 * minutesPerDay + (3 * 60 + 0) ∧
        createMealRegistrationData 22 0 3 0 (0 * minutesPerDay + 0)
            / minutesPerDay = 0)) :=
  ⟨⟨by decide, by decide, by decide⟩,
   createMealRegistrationData_cross_midnight 22 0 3 0 0 0
     (by decide) (by decide) (by decide)⟩

/-- Counterexample to C3 as stated: in the scheduleOnce trace the timer is
armed strictly before saveTask persists the task, so the persist-before-arm
order claimed by the spec does not hold even on an empty scheduler. -/
theorem scheduleOnce_persist_order_counterexample :
    ¬ ((scheduleOnce ⟨[], [], []⟩ "task1" 100 0).2.findIdx isSaveAction
        < (scheduleOnce ⟨[], [], []⟩ "task1" 100 0).2.findIdx isArmAction) := by decide

/-- C3 amended: scheduleOnce (through scheduleTask) first cancels any existing
task with the same id, registers the task, arms the timer for
max(0, executeAt - now), and persists via saveTask only after the timer is
armed; the final state holds the task in the in-memory map, in the store, and
the timer with that delay. -/
theorem scheduleOnce_order_spec (s : SchedState) (id : String) (executeAt now : Nat) :
    (scheduleOnce s id executeAt now).2
      = [SchedAction.cancelExisting id, SchedAction.setTask id,
         SchedAction.armTimer id (max 0 ((executeAt : Int) - (now : Int))),
         SchedAction.saveTask id] ∧
    (scheduleOnce s id executeAt now).2.findIdx isArmAction
      < (scheduleOnce s id executeAt now).2.findIdx isSaveAction ∧
    (scheduleOnce s id executeAt now).1.tasks.lookup id
      = some ⟨id, SchedulerEventType.ONE_TIME, executeAt, none⟩ ∧
    (scheduleOnce s id executeAt now).1.store.lookup id
      = some ⟨id, SchedulerEventType.ONE_TIME, executeAt, none⟩ ∧
    (scheduleOnce s id executeAt now).1.timers.lookup id
      = some (max 0 ((executeAt : Int) - (now : Int))) := by
  refine ⟨rfl, ?_, ?_, ?_, ?_⟩
  · simp [scheduleOnce, scheduleTask, List.findIdx_cons, isArmAction, isSaveAction]
  · simp [scheduleOnce, scheduleTask, setEntry, List.lookup]
  · simp [scheduleOnce, scheduleTask, setEntry, List.lookup]
  · simp [scheduleOnce, scheduleTask, setEntry, List.lookup]

/-- C4 evaluated at a failing input: a recurring 05:00 task restricted to
weekday 3 (Wednesday), fired on a Monday at 06:00 (day 1 of the model week).
The next occurrence is Tuesday 05:00, weekday 2, which is not in the valid-day
set; findNextValidDay correctly yields 3, yet both the reschedule path and the
initial scheduleRecurring path keep the unadjusted Tuesday execution time,
because the source discards the result of the plus call (and scheduleRecurring
never consults the days at all). -/
theorem rescheduleExecuteAt_skips_day_adjustment :
    rescheduleExecuteAt 5 0 (some [3]) (minutesPerDay + 360) = 2 * minutesPerDay + 300 ∧
    dayOfWeek (rescheduleExecuteAt 5 0 (some [3]) (minutesPerDay + 360)) = 2 ∧
    (([3] : List Nat).contains 2) = false ∧
    findNextValidDay 2 [3] = 3 ∧
    ((scheduleRecurring ⟨[], [], []⟩ "r" 5 0 (some [3]) (minutesPerDay + 360)).1.tasks.lookup
        "r").map (fun task => task.executeAt) = some (2 * minutesPerDay + 300) := by decide

/-- Counterexample to C6 as stated: firing the recurring task taskR1 with a
subscriber that throws reports the error and leaves the scheduler state
intact, but the task is NOT rescheduled (rescheduledAt = none), because the
reschedule code sits after emit inside the same try block. -/
theorem executeTask_throw_no_reschedule_counterexample :
    (executeTask schedStateR1 "r1" true 400).2.notifications = 1 ∧
    (executeTask schedStateR1 "r1" true 400).2.errorReported = true ∧
    (executeTask schedStateR1 "r1" true 400).2.rescheduledAt = none ∧
    (executeTask schedStateR1 "r1" true 400).1 = schedStateR1 ∧
    taskR1.type = SchedulerEventType.RECURRING := by decide

/-- C6 amended: each fire of a present task emits exactly one taskExecuted
notification; a synchronous subscriber throw is caught and reported and the
call returns normally with the state unchanged (the scheduler loop survives),
but the recurring task is then NOT rescheduled on that fire — it is only
rescheduled at its next natural occurrence when the subscribers return
normally. -/
theorem executeTask_subscriber_error_contained
    (s : SchedState) (id : String) (task : SchedulerTask) (now : Nat)
    (h : s.tasks.lookup id = some task) :
    (∀ subscriberThrows : Bool,
      (executeTask s id subscriberThrows now).2.notifications = 1) ∧
    (executeTask s id true now).1 = s ∧
    (executeTask s id true now).2 = ⟨1, true, none, false⟩ ∧
    (∀ rec : Recurrence, task.type = SchedulerEventType.RECURRING →
      task.recurring = some rec →
      (executeTask s id false now).2.rescheduledAt
        = some (rescheduleExecuteAt rec.patternH rec.patternM rec.days now)) := by
  refine ⟨?_, ?_, ?_, ?_⟩
  · intro subscriberThrows
    cases subscriberThrows <;>
      cases htype : task.type <;> cases hrec : task.recurring <;>
        simp [executeTask, h, executeTaskTry, htype, hrec, pure, throw, throwThe,
              MonadExcept.throw, Except.pure, Except.map, Except.bind, Bind.bind,
              Functor.map]
  · simp [executeTask, h, executeTaskTry, pure, throw, throwThe, MonadExcept.throw,
          Except.pure, Except.map, Except.bind, Bind.bind, Functor.map]
  · simp [executeTask, h, executeTaskTry, pure, throw, throwThe, MonadExcept.throw,
          Except.pure, Except.map, Except.bind, Bind.bind, Functor.map]
  · intro rec htype hrec
    simp [executeTask, h, executeTaskTry, htype, hrec, pure, throw, throwThe,
          MonadExcept.throw, Except.pure, Except.map, Except.bind, Bind.bind,
          Functor.map]

/-- Witness for executeTask_subscriber_error_contained on the concrete
scheduler state holding the recurring task taskR1. -/
theorem executeTask_subscriber_error_contained_witness :
    schedStateR1.tasks.lookup "r1" = some taskR1 ∧
    ((∀ subscriberThrows : Bool,
       (executeTask schedStateR1 "r1" subscriberThrows 400).2.notifications = 1) ∧
     (executeTask schedStateR1 "r1" true 400).1 = schedStateR1 ∧
     (executeTask schedStateR1 "r1" true 400).2 = ⟨1, true, none, false⟩ ∧
     (∀ rec : Recurrence, taskR1.type = SchedulerEventType.RECURRING →
       taskR1.recurring = some rec →
       (executeTask schedStateR1 "r1" false 400).2.rescheduledAt
         = some (rescheduleExecuteAt rec.patternH rec.patternM rec.days 400))) :=
  ⟨by decide,
   executeTask_subscriber_error_contained schedStateR1 "r1" taskR1 400 (by decide)⟩

/-- Identifiers scheduled by recoverRegistration come from the row it was
given. -/
theorem recoverRegistration_sched (g : Gateway) (st : BotState)
    (registration : Registration) (now : Nat) :
    ∀ x ∈ (recoverRegistration g st registration now).2,
      x = registration.identifier_string := by
  intro x hx
  unfold recoverRegistration at hx
  split_ifs at hx <;> simp_all

/-- Identifiers scheduled by the recovery loop come from the rows it iterates
over. -/
theorem recoverLoop_sched_from_rows (g : Gateway) (regs : List Registration)
    (now : Nat) :
    ∀ (st : BotState) (x : Option String), x ∈ (recoverLoop g st regs now).2 →
      ∃ r ∈ regs, r.identifier_string = x := by
  induction regs with
  | nil =>
    intro st x hx
    simp [recoverLoop] at hx
  | cons reg rest ih =>
    intro st x hx
    simp only [recoverLoop] at hx
    rcases List.mem_append.mp hx with h1 | h2
    · exact ⟨reg, List.mem_cons_self reg rest,
        (recoverRegistration_sched g st reg now x h1).symm⟩
    · obtain ⟨r, hr, hrx⟩ := ih _ x h2
      exact ⟨r, List.mem_cons_of_mem reg hr, hrx⟩

/-- Locating a window row by a unique identifier finds exactly that row. -/
theorem find?_by_identifier (regs : List Registration) (i : String) (reg : Registration)
    (hmem : reg ∈ regs) (hid : reg.identifier_string = some i)
    (huniq : ∀ r ∈ regs, r.identifier_string = some i → r = reg) :
    regs.find? (fun r => r.identifier_string == some i) = some reg := by
  have hsome : (regs.find? (fun r => r.identifier_string == some i)).isSome :=
    List.find?_isSome.mpr ⟨reg, hmem, by simp [hid]⟩
  obtain ⟨r, hr⟩ := Option.isSome_iff_exists.mp hsome
  have hrmem := List.mem_of_find?_eq_some hr
  have hrp : r.identifier_string = some i := by simpa using List.find?_some hr
  rw [hr, huniq r hrmem hrp]

/-- Close processing of an identifier with no matching window row does
nothing: no gateway call and no state change. -/
theorem processRegistrationEnd_not_found (g : Gateway) (st : BotState) (i : String)
    (h : st.registrations.find? (fun r => r.identifier_string == some i) = none) :
    processRegistrationEnd g st i = (st, []) := by
  simp [processRegistrationEnd, h]

/-- C1: once close processing for a window completes with every gateway call
succeeding, the window row is gone, exactly one summary was sent, any later
close processing of the same identifier sends nothing, and no later recovery
run schedules close processing for that identifier; conversely, when the
message fetch, the summary send or the reaction strip fails, the row survives
so a retry can still process it. -/
theorem processRegistrationEnd_exactly_once
    (g : Gateway) (st : BotState) (i : String) (reg : Registration)
    (hmem : reg ∈ st.registrations)
    (hid : reg.identifier_string = some i)
    (huniq : ∀ r ∈ st.registrations, r.identifier_string = some i → r = reg)
    (hch : g.channelExists reg.channel_id = true)
    (hmsg : g.messageExists reg.message_id = true)
    (hmembers : g.membersOk = true)
    (hsend : g.sendOk = true)
    (hstrip : g.stripOk = true) :
    (∀ r ∈ (processRegistrationEnd g st i).1.registrations,
       r.identifier_string ≠ some i) ∧
    (processRegistrationEnd g st i).1.summariesSent = st.summariesSent + 1 ∧
    (∀ g' : Gateway,
       (processRegistrationEnd g' (processRegistrationEnd g st i).1 i).1.summariesSent
         = (processRegistrationEnd g st i).1.summariesSent ∧
       (processRegistrationEnd g' (processRegistrationEnd g st i).1 i).2 = []) ∧
    (∀ (g' : Gateway) (now : Nat),
       some i ∉ (recoverState g' (processRegistrationEnd g st i).1 now).2) ∧
    (∀ g' : Gateway,
       (g'.messageExists reg.message_id = false ∨ g'.sendOk = false ∨
        g'.stripOk = false) →
       reg ∈ (processRegistrationEnd g' st i).1.registrations) := by
  have hfind := find?_by_identifier st.registrations i reg hmem hid huniq
  have hproc : (processRegistrationEnd g st i).1 =
      { st with
        registrations :=
          st.registrations.filter (fun r => !(r.message_id == reg.message_id)),
        summariesSent := st.summariesSent + 1 } := by
    simp [processRegistrationEnd, hfind, hch, hmsg, hmembers, hsend, hstrip]
  have hnone : ∀ r ∈ (processRegistrationEnd g st i).1.registrations,
      r.identifier_string ≠ some i := by
    intro r hr hri
    rw [hproc] at hr
    have hrmem : r ∈ st.registrations := List.mem_of_mem_filter hr
    have hkeep := List.of_mem_filter hr
    rw [huniq r hrmem hri] at hkeep
    simp at hkeep
  refine ⟨hnone, by rw [hproc], ?_, ?_, ?_⟩
  · intro g'
    have hfind2 : (processRegistrationEnd g st i).1.registrations.find?
        (fun r => r.identifier_string == some i) = none := by
      rw [List.find?_eq_none]
      intro r hr
      simpa using hnone r hr
    rw [processRegistrationEnd_not_found g' (processRegistrationEnd g st i).1 i hfind2]
    exact ⟨rfl, rfl⟩
  · intro g' now hin
    obtain ⟨r, hr, hrx⟩ :=
      recoverLoop_sched_from_rows g' (processRegistrationEnd g st i).1.registrations now
        (processRegistrationEnd g st i).1 (some i) hin
    exact hnone r hr hrx
  · intro g' hfail
    cases hch' : g'.channelExists reg.channel_id <;>
      cases hmsg' : g'.messageExists reg.message_id <;>
        cases hmembers' : g'.membersOk <;>
          cases hsend' : g'.sendOk <;>
            cases hstrip' : g'.stripOk <;>
              simp_all [processRegistrationEnd, hfind]

/-- Witness for processRegistrationEnd_exactly_once on a one-window state with
an all-success gateway. -/
theorem processRegistrationEnd_exactly_once_witness :
    (regMeal ∈ botStateOne.registrations ∧
     regMeal.identifier_string = some "MEAL_REGISTRATION_01" ∧
     gatewayAllOk.channelExists regMeal.channel_id = true ∧
     gatewayAllOk.messageExists regMeal.message_id = true) ∧
    ((∀ r ∈ (processRegistrationEnd gatewayAllOk botStateOne "MEAL_REGISTRATION_01").1.registrations,
        r.identifier_string ≠ some "MEAL_REGISTRATION_01") ∧
     (processRegistrationEnd gatewayAllOk botStateOne "MEAL_REGISTRATION_01").1.summariesSent
       = botStateOne.summariesSent + 1 ∧
     (∀ g' : Gateway,
        (processRegistrationEnd g'
            (processRegistrationEnd gatewayAllOk botStateOne "MEAL_REGISTRATION_01").1
            "MEAL_REGISTRATION_01").1.summariesSent
          = (processRegistrationEnd gatewayAllOk botStateOne "MEAL_REGISTRATION_01").1.summariesSent ∧
        (processRegistrationEnd g'
            (processRegistrationEnd gatewayAllOk botStateOne "MEAL_REGISTRATION_01").1
            "MEAL_REGISTRATION_01").2 = []) ∧
     (∀ (g' : Gateway) (now : Nat),
        some "MEAL_REGISTRATION_01" ∉
          (recoverState g'
            (processRegistrationEnd gatewayAllOk botStateOne "MEAL_REGISTRATION_01").1 now).2) ∧
     (∀ g' : Gateway,
        (g'.messageExists regMeal.message_id = false ∨ g'.sendOk = false ∨
         g'.stripOk = false) →
        regMeal ∈ (processRegistrationEnd g' botStateOne "MEAL_REGISTRATION_01").1.registrations)) :=
  ⟨⟨by decide, by decide, rfl, rfl⟩,
   processRegistrationEnd_exactly_once gatewayAllOk botStateOne "MEAL_REGISTRATION_01" regMeal
     (by decide) (by decide) (by decide) rfl rfl rfl rfl rfl⟩

/-- Counterexample to C5 as stated: on a fully successful close run the summary
goes out through sendMessage — a new message — and no editMessage call appears
in the gateway trace; moreover the backing ledger rows survive the deletion of
the window row. -/
theorem processRegistrationEnd_no_edit_counterexample :
    (processRegistrationEnd gatewayAllOk botStateOne "MEAL_REGISTRATION_01").2
      = [GatewayCall.fetchMessage "c1" "m1", GatewayCall.fetchMembers,
         GatewayCall.sendMessage "c1", GatewayCall.removeAllReactions "m1"] ∧
    GatewayCall.sendMessage "c1"
      ∈ (processRegistrationEnd gatewayAllOk botStateOne "MEAL_REGISTRATION_01").2 ∧
    (processRegistrationEnd gatewayAllOk botStateOne "MEAL_REGISTRATION_01").2.all
        (fun a => !(isEditCall a)) = true ∧
    (processRegistrationEnd gatewayAllOk botStateOne "MEAL_REGISTRATION_01").1.reaction_data
      = botStateOne.reaction_data ∧
    botStateOne.reaction_data ≠ [] ∧
    (processRegistrationEnd gatewayAllOk botStateOne "MEAL_REGISTRATION_01").1.registrations
      = [] := by decide

/-- C5 amended: when the close task fires, the manager sends the summary as a
NEW message (it never edits the original), then strips all reactions from the
original message, and deletes the window row only after both of those gateway
calls succeed; the backing ledger rows are not deleted. A send or strip
failure keeps the row for retry. -/
theorem processRegistrationEnd_send_strip_then_delete
    (g : Gateway) (st : BotState) (i : String) (reg : Registration)
    (hmem : reg ∈ st.registrations)
    (hid : reg.identifier_string = some i)
    (huniq : ∀ r ∈ st.registrations, r.identifier_string = some i → r = reg)
    (hch : g.channelExists reg.channel_id = true)
    (hmsg : g.messageExists reg.message_id = true)
    (hmembers : g.membersOk = true) :
    (g.sendOk = true → g.stripOk = true →
       (processRegistrationEnd g st i).2
         = [GatewayCall.fetchMessage reg.channel_id reg.message_id,
            GatewayCall.fetchMembers, GatewayCall.sendMessage reg.channel_id,
            GatewayCall.removeAllReactions reg.message_id] ∧
       (∀ r ∈ (processRegistrationEnd g st i).1.registrations,
          r.identifier_string ≠ some i)) ∧
    (processRegistrationEnd g st i).2.all (fun a => !(isEditCall a)) = true ∧
    (processRegistrationEnd g st i).1.reaction_data = st.reaction_data ∧
    ((g.sendOk = false ∨ g.stripOk = false) →
       reg ∈ (processRegistrationEnd g st i).1.registrations) := by
  have hfind := find?_by_identifier st.registrations i reg hmem hid huniq
  refine ⟨?_, ?_, ?_, ?_⟩
  · intro hsend hstrip
    have hproc : (processRegistrationEnd g st i).1 =
        { st with
          registrations :=
            st.registrations.filter (fun r => !(r.message_id == reg.message_id)),
          summariesSent := st.summariesSent + 1 } := by
      simp [processRegistrationEnd, hfind, hch, hmsg, hmembers, hsend, hstrip]
    refine ⟨by simp [processRegistrationEnd, hfind, hch, hmsg, hmembers, hsend, hstrip], ?_⟩
    intro r hr hri
    rw [hproc] at hr
    have hrmem : r ∈ st.registrations := List.mem_of_mem_filter hr
    have hkeep := List.of_mem_filter hr
    rw [huniq r hrmem hri] at hkeep
    simp at hkeep
  · cases hsend : g.sendOk <;> cases hstrip : g.stripOk <;>
      simp [processRegistrationEnd, hfind, hch, hmsg, hmembers, hsend, hstrip, isEditCall]
  · cases hsend : g.sendOk <;> cases hstrip : g.stripOk <;>
      simp [processRegistrationEnd, hfind, hch, hmsg, hmembers, hsend, hstrip]
  · intro hfail
    cases hsend : g.sendOk <;> cases hstrip : g.stripOk <;>
      simp_all [processRegistrationEnd, hfind, hch, hmsg, hmembers]

/-- Witness for processRegistrationEnd_send_strip_then_delete on the concrete
one-window state. -/
theorem processRegistrationEnd_send_strip_then_delete_witness :
    (regMeal ∈ botStateOne.registrations ∧
     gatewayAllOk.membersOk = true) ∧
    ((gatewayAllOk.sendOk = true → gatewayAllOk.stripOk = true →
        (processRegistrationEnd gatewayAllOk botStateOne "MEAL_REGISTRATION_01").2
          = [GatewayCall.fetchMessage regMeal.channel_id regMeal.message_id,
             GatewayCall.fetchMembers, GatewayCall.sendMessage regMeal.channel_id,
             GatewayCall.removeAllReactions regMeal.message_id] ∧
        (∀ r ∈ (processRegistrationEnd gatewayAllOk botStateOne "MEAL_REGISTRATION_01").1.registrations,
           r.identifier_string ≠ some "MEAL_REGISTRATION_01")) ∧
     (processRegistrationEnd gatewayAllOk botStateOne "MEAL_REGISTRATION_01").2.all
         (fun a => !(isEditCall a)) = true ∧
     (processRegistrationEnd gatewayAllOk botStateOne "MEAL_REGISTRATION_01").1.reaction_data
       = botStateOne.reaction_data ∧
     ((gatewayAllOk.sendOk = false ∨ gatewayAllOk.stripOk = false) →
        regMeal ∈ (processRegistrationEnd gatewayAllOk botStateOne "MEAL_REGISTRATION_01").1.registrations)) :=
  ⟨⟨by decide, rfl⟩,
   processRegistrationEnd_send_strip_then_delete gatewayAllOk botStateOne
     "MEAL_REGISTRATION_01" regMeal (by decide) (by decide) (by decide) rfl rfl rfl⟩
